import Mathlib

/-!
Shallow embedding of the emulated rolling-shutter camera sensor declared in
`devices/EmulatedCamera/hwl/EmulatedSensor.h`.  The repository ships only the
header; every member whose body lives in the missing translation unit is
modelled from the specification and its doc comment says so.  `nsecs_t` and
`int32_t` become `Int`, unsigned sizes become `Nat`.
-/

namespace EmulatedSensor

/-- Bayer color filter arrangements of the header's
`camera_metadata_enum_android_sensor_info_color_filter_arrangement` field. -/
inductive ColorFilterArrangement where
  | rggb
  | grbg
  | gbrg
  | bggr
  | rgb
  deriving DecidableEq

/-- Sensor characteristics, from `EmulatedSensor::SensorCharacteristics`
(EmulatedSensor.h lines 101-114).  Each two-element C range array becomes an
explicit pair of min/max fields. -/
structure SensorCharacteristics where
  width : Nat
  height : Nat
  exposureTimeMin : Int
  exposureTimeMax : Int
  frameDurationMin : Int
  frameDurationMax : Int
  sensitivityMin : Int
  sensitivityMax : Int
  colorArangement : ColorFilterArrangement
  maxRawValue : Nat
  blackLevelPattern : Fin 4 → Nat

/-- Default-constructed characteristics, from the in-class constructor at
EmulatedSensor.h lines 110-113: zero geometry, all ranges zeroed, the RGGB
arrangement, zero max raw value and an all-zero black-level pattern. -/
def SensorCharacteristics.default : SensorCharacteristics where
  width := 0
  height := 0
  exposureTimeMin := 0
  exposureTimeMax := 0
  frameDurationMin := 0
  frameDurationMax := 0
  sensitivityMin := 0
  sensitivityMax := 0
  colorArangement := ColorFilterArrangement.rggb
  maxRawValue := 0
  blackLevelPattern := fun _ => 0

/-- Modelled from the spec: the values of the static bound
`kSupportedExposureTimeRange` (declared at EmulatedSensor.h line 168) live in
the missing translation unit; the startup scenario of spec section 8 exercises
an exposure range of [1ms, 300ms], taken here as the supported bound, in
nanoseconds. -/
def kSupportedExposureTimeRange : Int × Int := (1000000, 300000000)

/-- Modelled from the spec: the values of the static bound
`kSupportedFrameDurationRange` (declared at EmulatedSensor.h line 169) live in
the missing translation unit; the startup scenario of spec section 8 exercises
a frame-duration range of [33ms, 300ms], taken here as the supported bound, in
nanoseconds. -/
def kSupportedFrameDurationRange : Int × Int := (33000000, 300000000)

/-- Modelled from the spec: the values of the static bound
`kSupportedSensitivityRange` (declared at EmulatedSensor.h line 170) live in
the missing translation unit; the startup scenario of spec section 8 exercises
a sensitivity range of [100, 1600], taken here as the supported bound. -/
def kSupportedSensitivityRange : Int × Int := (100, 1600)

/-- Modelled from the spec: the value of
`kSupportedColorFilterArrangement` (declared at EmulatedSensor.h line 171)
lives in the missing translation unit; the header's default constructor and the
class doc comment (a Bayer-mosaic imager) make RGGB the supported
arrangement. -/
def kSupportedColorFilterArrangement : ColorFilterArrangement :=
  ColorFilterArrangement.rggb

/-- Modelled from the spec: the body of
`EmulatedSensor::areCharacteristicsSupported` (declared at EmulatedSensor.h
line 116) is not under src/.  Spec section 3 requires every range to be
non-empty and within the statically declared supported bounds, with a
non-degenerate pixel array and the supported color filter arrangement; a
sensor that fails this check must refuse to start. -/
def areCharacteristicsSupported (c : SensorCharacteristics) : Bool :=
  decide (0 < c.width) && decide (0 < c.height) &&
  decide (kSupportedExposureTimeRange.1 ≤ c.exposureTimeMin) &&
  decide (c.exposureTimeMin ≤ c.exposureTimeMax) &&
  decide (c.exposureTimeMax ≤ kSupportedExposureTimeRange.2) &&
  decide (kSupportedFrameDurationRange.1 ≤ c.frameDurationMin) &&
  decide (c.frameDurationMin ≤ c.frameDurationMax) &&
  decide (c.frameDurationMax ≤ kSupportedFrameDurationRange.2) &&
  decide (kSupportedSensitivityRange.1 ≤ c.sensitivityMin) &&
  decide (c.sensitivityMin ≤ c.sensitivityMax) &&
  decide (c.sensitivityMax ≤ kSupportedSensitivityRange.2) &&
  decide (c.colorArangement = kSupportedColorFilterArrangement)

/-- Per-frame settings, from `EmulatedSensor::SensorSettings` (EmulatedSensor.h
lines 129-148).  The opaque notify callback is outside the modelled core (spec
section 6 treats it as an external collaborator); the remaining fields are kept.
The unsigned `gain` becomes `Int` so it compares against the signed
sensitivity range. -/
structure SensorSettings where
  pipelineId : Nat
  exposureTime : Int
  frameDuration : Int
  gain : Int
  frameNumber : Nat

/-- Default-constructed settings, from the zeroing constructor at
EmulatedSensor.h lines 135-141. -/
def SensorSettings.default : SensorSettings where
  pipelineId := 0
  exposureTime := 0
  frameDuration := 0
  gain := 0
  frameNumber := 0

/-- Modelled from the spec: the per-frame validation applied where settings are
submitted (the body of `setCurrentRequest`, declared at EmulatedSensor.h lines
150-151, is not under src/).  Spec section 3: `exposureTime ≤ frameDuration`,
both within the started characteristics ranges, and gain within the
sensitivity range. -/
def validSettings (c : SensorCharacteristics) (s : SensorSettings) : Bool :=
  decide (s.exposureTime ≤ s.frameDuration) &&
  decide (c.exposureTimeMin ≤ s.exposureTime) &&
  decide (s.exposureTime ≤ c.exposureTimeMax) &&
  decide (c.frameDurationMin ≤ s.frameDuration) &&
  decide (s.frameDuration ≤ c.frameDurationMax) &&
  decide (c.sensitivityMin ≤ s.gain) &&
  decide (s.gain ≤ c.sensitivityMax)

/-- Status results of the power-control surface, abstracting the android
`status_t` values the header's `startUp`/`shutDown` return. -/
inductive Status where
  | ok
  | badValue
  deriving DecidableEq

/-- Control-side state of the sensor device: power flag, the frozen
characteristics, the recorded startup timestamp (`mStartupTime`,
EmulatedSensor.h line 225), the current settings slot (`mCurrentSettings`,
line 209) and the cooperative termination flag of the worker. -/
structure Sensor where
  poweredOn : Bool
  chars : SensorCharacteristics
  startupTime : Int
  currentSettings : SensorSettings
  exitRequested : Bool

/-- State of a sensor object before any power-control call. -/
def initialSensor : Sensor where
  poweredOn := false
  chars := SensorCharacteristics.default
  startupTime := 0
  currentSettings := SensorSettings.default
  exitRequested := false

/-- Modelled from the spec: the body of `startUp` (declared at EmulatedSensor.h
line 122) is not under src/.  Spec section 4.4: validate the characteristics
via the static support check, record the startup timestamp, and start the
worker; fail with a validation error, leaving the device untouched, if the
characteristics are unsupported. -/
def startUp (s : Sensor) (c : SensorCharacteristics) (now : Int) :
    Sensor × Status :=
  if areCharacteristicsSupported c then
    ({ s with poweredOn := true, chars := c, startupTime := now,
              exitRequested := false }, Status.ok)
  else
    (s, Status.badValue)

/-- Modelled from the spec: the body of `shutDown` (declared at EmulatedSensor.h
line 123) is not under src/.  Spec section 4.4: request loop termination, wake
any blocked gate waiters, join the worker; idempotent and safe without a prior
successful startUp. -/
def shutDown (s : Sensor) : Sensor × Status :=
  ({ s with poweredOn := false, exitRequested := true }, Status.ok)

/-- Modelled from the spec: the body of `setCurrentRequest` (declared at
EmulatedSensor.h lines 150-151) is not under src/.  Spec sections 1 and 7:
out-of-range per-frame settings are rejected synchronously at the boundary and
never observed mid-cycle; a valid submission replaces the current settings
slot.  The returned flag reports acceptance. -/
def setCurrentRequest (s : Sensor) (settings : SensorSettings) :
    Sensor × Bool :=
  if validSettings s.chars settings then
    ({ s with currentSettings := settings }, true)
  else
    (s, false)

/-- Readout-side state guarded by `mReadoutMutex` (EmulatedSensor.h lines
216-222): whether a captured buffer set awaits collection (`mCapturedBuffers`
non-null) and the published capture timestamp (`mCaptureTime`). -/
structure ReadoutState where
  capturedAvailable : Bool
  captureTime : Int

/-- Ways a blocked gate wait can resume: the worker signalled the gate's
condition, shutDown broadcast to wake every waiter, or the caller-supplied
relative timeout elapsed. -/
inductive WaitWake where
  | signaled
  | shutdownWake
  | timedOut
  deriving DecidableEq

/-- Modelled from the spec: the body of `waitForNewFrame` (declared at
EmulatedSensor.h line 166) is not under src/.  Spec section 4.3: if a frame
became available since the caller's last successful wait, return immediately
with that frame's timestamp (consuming the pending-frame flag); otherwise
block until the next new-frame signal, which carries the freshly published
capture time, or report false on timeout or on a shutdown wake-up.  The result
is the updated readout state, the boolean, and the returned capture time. -/
def waitForNewFrame (st : ReadoutState) (wake : WaitWake) (published : Int) :
    ReadoutState × Bool × Option Int :=
  if st.capturedAvailable then
    ({ st with capturedAvailable := false }, true, some st.captureTime)
  else
    match wake with
    | WaitWake.signaled => (⟨false, published⟩, true, some published)
    | WaitWake.shutdownWake => (st, false, none)
    | WaitWake.timedOut => (st, false, none)

/-- Modelled from the spec: the body of `waitForVSync` (declared at
EmulatedSensor.h line 160) is not under src/.  Spec section 4.3: the wait
blocks until the next vertical-sync signal or timeout and returns whether a
signal was observed, so only a genuine worker signal reports true. -/
def waitForVSyncResult (wake : WaitWake) : Bool :=
  decide (wake = WaitWake.signaled)

/-- Modelled from the spec: the readout-publication step of the worker's
ReadingOut phase (spec section 4.4 step 3): the captured buffers and capture
timestamp are published under the readout lock, raising the pending-frame
flag the new-frame gate consumes. -/
def publishReadout (t : Int) : ReadoutState :=
  ⟨true, t⟩

/-- Modelled from the spec: the startup computation of `mRowReadoutTime`
(declared at EmulatedSensor.h line 187) is not under src/.  The header comment
at lines 183-186 makes the minimum frame duration purely a function of row
readout time, so the row readout time spreads the declared minimum frame
duration evenly across all sensor rows. -/
def rowReadoutTime (c : SensorCharacteristics) : Int :=
  c.frameDurationMin / (c.height : Int)

/-- Modelled from the spec: `minimumFrameDuration(characteristics)` (spec
section 4.1) — rows overlap their reset and expose phases with other rows'
readout, so total rows times the row readout time bounds the minimum cycle. -/
def minimumFrameDuration (c : SensorCharacteristics) : Int :=
  (c.height : Int) * rowReadoutTime c

/-- Modelled from the spec: the start of `rowExposureWindow(rowIndex,
frameStart, exposureTime, frameDuration)` (spec section 4.1) — row i's
exposure window is offset from the frame start by i times the row readout
time, matching the rolling-shutter description at EmulatedSensor.h lines
35-37. -/
def rowExposureStart (frameStart : Int) (rrt : Int) (i : Nat) : Int :=
  frameStart + (i : Int) * rrt

/-- One cycle of the worker's schedule: the frame number taken from that
cycle's settings, the scheduled frame start, the frame duration in force, and
the wall-clock time the loop actually woke, which absorbs the wait jitter. -/
structure CycleRecord where
  frameNumber : Nat
  start : Int
  duration : Int
  wakeTime : Int

/-- Modelled from the spec: the schedule produced by `threadLoop` (declared at
EmulatedSensor.h line 233, body not under src/).  Spec section 4.1 edge case:
the first frame's start reference is the recorded startup time; every
subsequent frame's start is the previous frame's scheduled start plus that
frame's frame duration.  Each cycle's wall-clock wake time overshoots the
scheduled frame end by that cycle's jitter, which never feeds back into the
schedule. -/
def cycleSchedule (startupTime : Int) (settings : Nat → SensorSettings)
    (jitter : Nat → Int) : Nat → CycleRecord
  | 0 =>
      { frameNumber := (settings 0).frameNumber
        start := startupTime
        duration := (settings 0).frameDuration
        wakeTime := startupTime + (settings 0).frameDuration + jitter 0 }
  | n + 1 =>
      let prev := cycleSchedule startupTime settings jitter n
      { frameNumber := (settings (n + 1)).frameNumber
        start := prev.start + prev.duration
        duration := (settings (n + 1)).frameDuration
        wakeTime := prev.start + prev.duration + (settings (n + 1)).frameDuration
          + jitter (n + 1) }

/-- Observable events of one pipeline cycle: the configure phase, the
vertical-sync signal, and the readout publication, each tagged with the frame
number of the settings in force for that cycle. -/
inductive SensorEvent where
  | configure (frameNumber : Nat)
  | vsync (frameNumber : Nat)
  | readout (frameNumber : Nat) (captureTime : Int)
  deriving DecidableEq

/-- Modelled from the spec: the event order of one `threadLoop` cycle (spec
section 4.4): the configure phase captures the settings and signals the
vertical-sync gate, capture runs, then readout publishes the same frame. -/
def cycleEvents (settings : Nat → SensorSettings) (captureTimes : Nat → Int)
    (n : Nat) : List SensorEvent :=
  [SensorEvent.configure (settings n).frameNumber,
   SensorEvent.vsync (settings n).frameNumber,
   SensorEvent.readout (settings n).frameNumber (captureTimes n)]

/-- Modelled from the spec: the trace of the first n worker cycles, oldest
event first (spec sections 4.4 and 5). -/
def pipelineTrace (settings : Nat → SensorSettings) (captureTimes : Nat → Int) :
    Nat → List SensorEvent
  | 0 => []
  | n + 1 =>
      pipelineTrace settings captureTimes n ++ cycleEvents settings captureTimes n

/-- Frame numbers observed through the new-frame gate: the readout events of a
trace in order. -/
def readoutFrames (trace : List SensorEvent) : List Nat :=
  trace.filterMap fun e =>
    match e with
    | SensorEvent.readout fn _ => some fn
    | _ => none

/-- Modelled from the spec: charge collection of the pixel synthesizer (spec
section 4.2, body of `captureRaw` declared at EmulatedSensor.h line 240 not
under src/): the collected electron count saturates at the sensor's full-well
electron count, whose numeric value (`kSaturationElectrons`, line 195) is kept
as a parameter. -/
def collectedCharge (saturationElectrons electrons : Nat) : Nat :=
  min electrons saturationElectrons

/-- Modelled from the spec: analog amplification of the collected charge (spec
section 4.2 and glossary), with gain as an ISO-style sensitivity where 100 is
unit gain (spec section 8 scenario). -/
def amplifiedCharge (saturationElectrons electrons gain : Nat) : Int :=
  ((collectedCharge saturationElectrons electrons : Int) * (gain : Int)) / 100

/-- Modelled from the spec: the final digital sample of one raw Bayer pixel
(spec section 4.2): the amplified charge plus the sampled noise value plus the
Bayer channel's black-level offset, clamped to the valid raw range
[0, maxRawValue].  The noise sample stands for one draw of the two-regime
read noise plus signal-dependent shot noise; the clamp bounds every draw. -/
def synthesizeRawPixel (c : SensorCharacteristics) (saturationElectrons : Nat)
    (channel : Fin 4) (electrons gain : Nat) (noiseSample : Int) : Int :=
  max 0 (min (amplifiedCharge saturationElectrons electrons gain + noiseSample
    + (c.blackLevelPattern channel : Int)) (c.maxRawValue : Int))

/-- Characteristics exercised by the startup scenario of spec section 8:
640x480, exposure range [1ms, 300ms], frame-duration range [33ms, 300ms],
sensitivity range [100, 1600]. -/
def scenarioChars : SensorCharacteristics where
  width := 640
  height := 480
  exposureTimeMin := 1000000
  exposureTimeMax := 300000000
  frameDurationMin := 33000000
  frameDurationMax := 300000000
  sensitivityMin := 100
  sensitivityMax := 1600
  colorArangement := ColorFilterArrangement.rggb
  maxRawValue := 4000
  blackLevelPattern := fun _ => 1000

/-- Settings exercised by the startup scenario of spec section 8: exposure
20ms, frame duration 50ms, gain 100. -/
def scenarioSettings : SensorSettings where
  pipelineId := 0
  exposureTime := 20000000
  frameDuration := 50000000
  gain := 100
  frameNumber := 0

/-- Settings violating the exposure-versus-frame-duration invariant: exposure
60ms against a 50ms frame duration. -/
def invalidScenarioSettings : SensorSettings where
  pipelineId := 0
  exposureTime := 60000000
  frameDuration := 50000000
  gain := 100
  frameNumber := 1

/-- Device state after a successful scenario startup at timestamp 0. -/
def scenarioSensor : Sensor :=
  (startUp initialSensor scenarioChars 0).1

theorem validSettings_eq_true_iff (c : SensorCharacteristics)
    (s : SensorSettings) :
    validSettings c s = true ↔
      s.exposureTime ≤ s.frameDuration ∧
      c.exposureTimeMin ≤ s.exposureTime ∧ s.exposureTime ≤ c.exposureTimeMax ∧
      c.frameDurationMin ≤ s.frameDuration ∧
      s.frameDuration ≤ c.frameDurationMax ∧
      c.sensitivityMin ≤ s.gain ∧ s.gain ≤ c.sensitivityMax := by
  simp [validSettings, Bool.and_eq_true, decide_eq_true_eq, and_assoc]

theorem areCharacteristicsSupported_eq_true_iff (c : SensorCharacteristics) :
    areCharacteristicsSupported c = true ↔
      0 < c.width ∧ 0 < c.height ∧
      kSupportedExposureTimeRange.1 ≤ c.exposureTimeMin ∧
      c.exposureTimeMin ≤ c.exposureTimeMax ∧
      c.exposureTimeMax ≤ kSupportedExposureTimeRange.2 ∧
      kSupportedFrameDurationRange.1 ≤ c.frameDurationMin ∧
      c.frameDurationMin ≤ c.frameDurationMax ∧
      c.frameDurationMax ≤ kSupportedFrameDurationRange.2 ∧
      kSupportedSensitivityRange.1 ≤ c.sensitivityMin ∧
      c.sensitivityMin ≤ c.sensitivityMax ∧
      c.sensitivityMax ≤ kSupportedSensitivityRange.2 ∧
      c.colorArangement = kSupportedColorFilterArrangement := by
  simp [areCharacteristicsSupported, Bool.and_eq_true, decide_eq_true_eq,
    and_assoc]

theorem cycleSchedule_duration (startupTime : Int)
    (settings : Nat → SensorSettings) (jitter : Nat → Int) (n : Nat) :
    (cycleSchedule startupTime settings jitter n).duration =
      (settings n).frameDuration := by
  cases n <;> rfl

theorem minimumFrameDuration_le_frameDurationMin (c : SensorCharacteristics)
    (hsup : areCharacteristicsSupported c = true) :
    minimumFrameDuration c ≤ c.frameDurationMin := by
  obtain ⟨-, hh, -, -, -, hfd, -⟩ :=
    (areCharacteristicsSupported_eq_true_iff c).1 hsup
  have hne : (c.height : Int) ≠ 0 := by
    exact_mod_cast Nat.pos_iff_ne_zero.1 hh
  have hmod := Int.emod_nonneg c.frameDurationMin hne
  have hdiv := Int.ediv_add_emod c.frameDurationMin (c.height : Int)
  unfold minimumFrameDuration rowReadoutTime
  linarith

theorem pipelineTrace_length (settings : Nat → SensorSettings)
    (captureTimes : Nat → Int) (n : Nat) :
    (pipelineTrace settings captureTimes n).length = 3 * n := by
  induction n with
  | zero => rfl
  | succ m ih =>
      simp [pipelineTrace, cycleEvents, ih]
      omega

theorem pipelineTrace_cycle_events (settings : Nat → SensorSettings)
    (captureTimes : Nat → Int) (n k : Nat) (hk : k < n) :
    (pipelineTrace settings captureTimes n)[3 * k]? =
      some (SensorEvent.configure (settings k).frameNumber) ∧
    (pipelineTrace settings captureTimes n)[3 * k + 1]? =
      some (SensorEvent.vsync (settings k).frameNumber) ∧
    (pipelineTrace settings captureTimes n)[3 * k + 2]? =
      some (SensorEvent.readout (settings k).frameNumber (captureTimes k)) := by
  induction n with
  | zero => exact absurd hk (Nat.not_lt_zero k)
  | succ m ih =>
      rcases Nat.lt_succ_iff_lt_or_eq.1 hk with h | h
      · have hlen := pipelineTrace_length settings captureTimes m
        obtain ⟨h1, h2, h3⟩ := ih h
        refine ⟨?_, ?_, ?_⟩ <;>
          rw [pipelineTrace, List.getElem?_append_left (by rw [hlen]; omega)]
        · exact h1
        · exact h2
        · exact h3
      · subst h
        have hlen := pipelineTrace_length settings captureTimes k
        have hge0 : (pipelineTrace settings captureTimes k).length ≤ 3 * k :=
          le_of_eq hlen
        have hge1 : (pipelineTrace settings captureTimes k).length ≤ 3 * k + 1 := by
          omega
        have hge2 : (pipelineTrace settings captureTimes k).length ≤ 3 * k + 2 := by
          omega
        refine ⟨?_, ?_, ?_⟩
        · rw [pipelineTrace, List.getElem?_append_right hge0, hlen]
          have h0 : 3 * k - 3 * k = 0 := by omega
          rw [h0]; rfl
        · rw [pipelineTrace, List.getElem?_append_right hge1, hlen]
          have h1 : 3 * k + 1 - 3 * k = 1 := by omega
          rw [h1]; rfl
        · rw [pipelineTrace, List.getElem?_append_right hge2, hlen]
          have h2 : 3 * k + 2 - 3 * k = 2 := by omega
          rw [h2]; rfl

theorem readoutFrames_pipelineTrace (settings : Nat → SensorSettings)
    (captureTimes : Nat → Int) (n : Nat) :
    readoutFrames (pipelineTrace settings captureTimes n) =
      (List.range n).map fun k => (settings k).frameNumber := by
  induction n with
  | zero => rfl
  | succ m ih =>
      simp only [pipelineTrace, readoutFrames, List.filterMap_append,
        List.range_succ, List.map_append]
      rw [readoutFrames] at ih
      rw [ih]
      rfl

/-- Claim C10: a default-constructed SensorCharacteristics has width 0,
height 0, all three value ranges equal to [0,0], maxRawValue 0, an all-zero
black-level pattern and the RGGB color filter arrangement, and
areCharacteristicsSupported returns false for it, so startUp with
default-constructed characteristics can never report success. -/
theorem default_characteristics_unsupported :
    SensorCharacteristics.default.width = 0 ∧
    SensorCharacteristics.default.height = 0 ∧
    SensorCharacteristics.default.exposureTimeMin = 0 ∧
    SensorCharacteristics.default.exposureTimeMax = 0 ∧
    SensorCharacteristics.default.frameDurationMin = 0 ∧
    SensorCharacteristics.default.frameDurationMax = 0 ∧
    SensorCharacteristics.default.sensitivityMin = 0 ∧
    SensorCharacteristics.default.sensitivityMax = 0 ∧
    SensorCharacteristics.default.maxRawValue = 0 ∧
    (∀ i : Fin 4, SensorCharacteristics.default.blackLevelPattern i = 0) ∧
    SensorCharacteristics.default.colorArangement = ColorFilterArrangement.rggb ∧
    areCharacteristicsSupported SensorCharacteristics.default = false ∧
    ∀ (s : Sensor) (now : Int),
      (startUp s SensorCharacteristics.default now).2 = Status.badValue := by
  have hunsup : areCharacteristicsSupported SensorCharacteristics.default = false := by
    decide
  refine ⟨rfl, rfl, rfl, rfl, rfl, rfl, rfl, rfl, rfl, fun i => rfl, rfl,
    hunsup, fun s now => ?_⟩
  simp [startUp, hunsup]

/-- Claim C2: areCharacteristicsSupported is a pure function of its
characteristics argument — startUp's outcome never depends on the prior
device state — and startUp fails with a validation error, leaving the device
untouched and the worker unstarted, exactly when the support check is false;
a supported startup powers the device on and records the startup timestamp. -/
theorem startUp_validates_characteristics (s1 s2 : Sensor)
    (c : SensorCharacteristics) (now : Int) :
    ((startUp s1 c now).2 = Status.ok ↔ areCharacteristicsSupported c = true) ∧
    (startUp s1 c now).2 = (startUp s2 c now).2 ∧
    (areCharacteristicsSupported c = false →
      (startUp s1 c now).2 = Status.badValue ∧ (startUp s1 c now).1 = s1) ∧
    (areCharacteristicsSupported c = true →
      (startUp s1 c now).1.poweredOn = true ∧
      (startUp s1 c now).1.chars = c ∧
      (startUp s1 c now).1.startupTime = now) := by
  cases h : areCharacteristicsSupported c <;> simp [startUp, h]

/-- Concrete run of the startup validation property: the spec section 8
scenario characteristics pass the support check and a startup with them
succeeds. -/
theorem startUp_validates_characteristics_witness :
    (startUp initialSensor scenarioChars 7).2 = Status.ok :=
  (startUp_validates_characteristics initialSensor scenarioSensor
    scenarioChars 7).1.mpr (by decide)

/-- Claim C1: a SensorSettings submitted through setCurrentRequest while the
sensor is started is rejected exactly when its exposure time exceeds its frame
duration or its exposure time, frame duration or gain lies outside the started
characteristics ranges; a rejected submission leaves the control state — and
so every later capture cycle — untouched, and every other submission is
accepted. -/
theorem setCurrentRequest_rejects_invalid (s : Sensor) (x : SensorSettings)
    (_started : s.poweredOn = true) :
    ((setCurrentRequest s x).2 = false ↔
      (x.frameDuration < x.exposureTime ∨
       x.exposureTime < s.chars.exposureTimeMin ∨
       s.chars.exposureTimeMax < x.exposureTime ∨
       x.frameDuration < s.chars.frameDurationMin ∨
       s.chars.frameDurationMax < x.frameDuration ∨
       x.gain < s.chars.sensitivityMin ∨
       s.chars.sensitivityMax < x.gain)) ∧
    ((setCurrentRequest s x).2 = false → (setCurrentRequest s x).1 = s) := by
  cases hv : validSettings s.chars x with
  | true =>
      have hconj := (validSettings_eq_true_iff s.chars x).1 hv
      constructor
      · simp only [setCurrentRequest, hv, if_true]
        constructor
        · intro hfalse
          exact absurd hfalse (by simp)
        · intro hdisj
          omega
      · intro hfalse
        simp [setCurrentRequest, hv] at hfalse
  | false =>
      have hnconj : ¬(x.exposureTime ≤ x.frameDuration ∧
          s.chars.exposureTimeMin ≤ x.exposureTime ∧
          x.exposureTime ≤ s.chars.exposureTimeMax ∧
          s.chars.frameDurationMin ≤ x.frameDuration ∧
          x.frameDuration ≤ s.chars.frameDurationMax ∧
          s.chars.sensitivityMin ≤ x.gain ∧
          x.gain ≤ s.chars.sensitivityMax) := by
        rw [← validSettings_eq_true_iff]
        simp [hv]
      constructor
      · simp only [setCurrentRequest, hv, if_false, Bool.false_eq_true]
        constructor
        · intro _
          omega
        · intro _
          trivial
      · intro _
        simp [setCurrentRequest, hv]

/-- Concrete run of the submission validation: settings with a 60ms exposure
inside a 50ms frame are rejected by a started scenario sensor and leave its
state unchanged. -/
theorem setCurrentRequest_rejects_invalid_witness :
    (setCurrentRequest scenarioSensor invalidScenarioSettings).2 = false ∧
    (setCurrentRequest scenarioSensor invalidScenarioSettings).1 =
      scenarioSensor := by
  have h := setCurrentRequest_rejects_invalid scenarioSensor
    invalidScenarioSettings (by decide)
  have hrej := h.1.mpr (Or.inl (by decide))
  exact ⟨hrej, h.2 hrej⟩

/-- Claim C9: shutDown is idempotent and safe without a prior startUp — a
second shutDown reproduces exactly the same state and status, shutDown of a
never-started sensor succeeds — and the shutdown broadcast resolves a waiter
blocked in waitForVSync or waitForNewFrame with a not-signaled false result
rather than leaving it blocked. -/
theorem shutDown_idempotent_safe (s : Sensor) (st : ReadoutState)
    (published : Int) (hblocked : st.capturedAvailable = false) :
    shutDown (shutDown s).1 = shutDown s ∧
    (shutDown s).2 = Status.ok ∧
    (shutDown initialSensor).2 = Status.ok ∧
    waitForVSyncResult WaitWake.shutdownWake = false ∧
    waitForNewFrame st WaitWake.shutdownWake published = (st, false, none) := by
  refine ⟨rfl, rfl, rfl, rfl, ?_⟩
  simp [waitForNewFrame, hblocked]

/-- Concrete run of the shutdown property: shutting the never-started sensor
down twice reproduces the single-shutdown state, and a blocked new-frame
waiter woken by shutdown reports false. -/
theorem shutDown_idempotent_safe_witness :
    shutDown (shutDown initialSensor).1 = shutDown initialSensor ∧
    waitForNewFrame ⟨false, 0⟩ WaitWake.shutdownWake 5 =
      (⟨false, 0⟩, false, none) := by
  have h := shutDown_idempotent_safe initialSensor ⟨false, 0⟩ 5 rfl
  exact ⟨h.1, h.2.2.2.2⟩

/-- Claim C3: a waitForNewFrame call that finds a frame published since the
caller's last successful wait returns true immediately — whatever wake-up
would otherwise arrive, so no availability signal is ever missed — with that
frame's capture timestamp; a freshly published readout is returned with its
own timestamp; and with no pending frame the call returns true exactly when
the new-frame signal arrives, reporting false when the timeout elapses. -/
theorem waitForNewFrame_no_missed_signal (st : ReadoutState) (wake : WaitWake)
    (published t : Int) :
    (st.capturedAvailable = true →
      waitForNewFrame st wake published =
        ({ st with capturedAvailable := false }, true, some st.captureTime)) ∧
    waitForNewFrame (publishReadout t) wake published =
      (⟨false, t⟩, true, some t) ∧
    (st.capturedAvailable = false →
      ((waitForNewFrame st wake published).2.1 = true ↔
        wake = WaitWake.signaled) ∧
      (wake = WaitWake.timedOut →
        waitForNewFrame st wake published = (st, false, none))) := by
  obtain ⟨avail, ct⟩ := st
  cases avail <;> cases wake <;>
    simp [waitForNewFrame, publishReadout]

/-- Concrete run of the new-frame gate: with a pending frame stamped 42 the
wait returns true with timestamp 42 even though the wake-up that would have
arrived is a timeout. -/
theorem waitForNewFrame_no_missed_signal_witness :
    waitForNewFrame ⟨true, 42⟩ WaitWake.timedOut 0 =
      (⟨false, 42⟩, true, some 42) :=
  (waitForNewFrame_no_missed_signal ⟨true, 42⟩ WaitWake.timedOut 0 9).1 rfl

/-- Claim C4: with the sensor's positive row readout time, row i of a frame
starts its exposure exactly i row-readout-times after the frame start, so for
every row index with i+1 still inside the sensor height, row i's exposure
start strictly precedes row i+1's by exactly the row-readout-time constant. -/
theorem rolling_shutter_row_monotone (c : SensorCharacteristics)
    (frameStart : Int) (i : Nat) (_inHeight : i + 1 < c.height)
    (hpos : 0 < rowReadoutTime c) :
    rowExposureStart frameStart (rowReadoutTime c) i - frameStart
      = (i : Int) * rowReadoutTime c ∧
    rowExposureStart frameStart (rowReadoutTime c) (i + 1)
      = rowExposureStart frameStart (rowReadoutTime c) i + rowReadoutTime c ∧
    rowExposureStart frameStart (rowReadoutTime c) i
      < rowExposureStart frameStart (rowReadoutTime c) (i + 1) := by
  unfold rowExposureStart
  push_cast
  refine ⟨by ring, by ring, ?_⟩
  nlinarith [hpos]

/-- Concrete run of the rolling-shutter offsets: for the spec section 8
scenario characteristics, row 0 of a frame starting at 100 is exposed strictly
before row 1. -/
theorem rolling_shutter_row_monotone_witness :
    rowExposureStart 100 (rowReadoutTime scenarioChars) 0
      < rowExposureStart 100 (rowReadoutTime scenarioChars) 1 :=
  (rolling_shutter_row_monotone scenarioChars 100 0 (by decide)
    (by decide)).2.2

/-- Claim C5: the minimum frame duration computed from the characteristics is
exactly total rows times the row readout time, and for supported
characteristics under a stream of validated settings the scheduled interval
between successive vertical-sync signals — the gap between consecutive
scheduled frame starts — is never less than that computed minimum. -/
theorem vsync_interval_ge_min_duration (c : SensorCharacteristics)
    (startupTime : Int) (settings : Nat → SensorSettings)
    (jitter : Nat → Int) (hsup : areCharacteristicsSupported c = true)
    (hval : ∀ n, validSettings c (settings n) = true) (n : Nat) :
    minimumFrameDuration c = (c.height : Int) * rowReadoutTime c ∧
    minimumFrameDuration c ≤
      (cycleSchedule startupTime settings jitter (n + 1)).start
        - (cycleSchedule startupTime settings jitter n).start := by
  refine ⟨rfl, ?_⟩
  have hstep : (cycleSchedule startupTime settings jitter (n + 1)).start =
      (cycleSchedule startupTime settings jitter n).start
        + (cycleSchedule startupTime settings jitter n).duration := rfl
  rw [hstep, cycleSchedule_duration]
  have hmin := minimumFrameDuration_le_frameDurationMin c hsup
  have hdur := ((validSettings_eq_true_iff c (settings n)).1 (hval n)).2.2.2.1
  linarith

/-- Concrete run of the frame-duration floor: one scenario cycle of 50ms
frames is scheduled no tighter than the 33ms minimum computed from the
scenario characteristics. -/
theorem vsync_interval_ge_min_duration_witness :
    minimumFrameDuration scenarioChars ≤
      (cycleSchedule 0 (fun _ => scenarioSettings) (fun _ => 0) 1).start
        - (cycleSchedule 0 (fun _ => scenarioSettings) (fun _ => 0) 0).start :=
  (vsync_interval_ge_min_duration scenarioChars 0 (fun _ => scenarioSettings)
    (fun _ => 0) (by decide)
    (fun n => (by decide : validSettings scenarioChars scenarioSettings = true))
    0).2

/-- Claim C6: the first frame's scheduled start equals the recorded startup
timestamp, every subsequent frame's scheduled start equals the previous
frame's scheduled start plus that previous frame's frame duration, and the
scheduled starts are independent of the wall-clock wake-up jitter the loop
experiences. -/
theorem frame_start_schedule_jitter_free (startupTime : Int)
    (settings : Nat → SensorSettings) :
    (∀ jitter, (cycleSchedule startupTime settings jitter 0).start
      = startupTime) ∧
    (∀ jitter n, (cycleSchedule startupTime settings jitter (n + 1)).start =
      (cycleSchedule startupTime settings jitter n).start
        + (cycleSchedule startupTime settings jitter n).duration) ∧
    (∀ jitter1 jitter2 n,
      (cycleSchedule startupTime settings jitter1 n).start =
        (cycleSchedule startupTime settings jitter2 n).start) := by
  refine ⟨fun _ => rfl, fun _ _ => rfl, fun j1 j2 n => ?_⟩
  induction n with
  | zero => rfl
  | succ m ih =>
      show (cycleSchedule startupTime settings j1 m).start
          + (cycleSchedule startupTime settings j1 m).duration
        = (cycleSchedule startupTime settings j2 m).start
          + (cycleSchedule startupTime settings j2 m).duration
      rw [ih, cycleSchedule_duration, cycleSchedule_duration]

/-- Claim C7: pixel synthesis is total and in range — for every electron
count, gain, Bayer channel and noise-sample draw of the two-regime noise, the
synthesized raw digital sample is the gain-amplified charge plus noise offset
by the channel's black level and clamped, and it always lies within
[0, maxRawValue]. -/
theorem synthesizeRawPixel_total_in_range (c : SensorCharacteristics)
    (sat electrons gain : Nat) (channel : Fin 4) (noiseSample : Int) :
    synthesizeRawPixel c sat channel electrons gain noiseSample =
      max 0 (min (amplifiedCharge sat electrons gain + noiseSample
        + (c.blackLevelPattern channel : Int)) (c.maxRawValue : Int)) ∧
    0 ≤ synthesizeRawPixel c sat channel electrons gain noiseSample ∧
    synthesizeRawPixel c sat channel electrons gain noiseSample
      ≤ (c.maxRawValue : Int) := by
  unfold synthesizeRawPixel
  refine ⟨rfl, le_max_left _ _, max_le ?_ (min_le_right _ _)⟩
  exact Int.natCast_nonneg _

/-- Claim C8: in the worker's trace the readout of frame N sits strictly after
frame N's vertical-sync signal, which sits strictly after frame N's configure
phase, and under continuous submission of consecutive frame numbers the frame
numbers observed through the new-frame gate are exactly 0, 1, 2, ... —
strictly increasing, never reordered and never dropped. -/
theorem readout_order_strictly_increasing (settings : Nat → SensorSettings)
    (captureTimes : Nat → Int) (n k : Nat) (hk : k < n)
    (hcont : ∀ m, (settings m).frameNumber = m) :
    (pipelineTrace settings captureTimes n)[3 * k]? =
      some (SensorEvent.configure k) ∧
    (pipelineTrace settings captureTimes n)[3 * k + 1]? =
      some (SensorEvent.vsync k) ∧
    (pipelineTrace settings captureTimes n)[3 * k + 2]? =
      some (SensorEvent.readout k (captureTimes k)) ∧
    3 * k < 3 * k + 1 ∧ 3 * k + 1 < 3 * k + 2 ∧
    readoutFrames (pipelineTrace settings captureTimes n) = List.range n := by
  obtain ⟨h1, h2, h3⟩ := pipelineTrace_cycle_events settings captureTimes n k hk
  rw [hcont k] at h1 h2 h3
  refine ⟨h1, h2, h3, by omega, by omega, ?_⟩
  rw [readoutFrames_pipelineTrace]
  simp [hcont]

/-- Concrete run of the readout ordering: two continuously submitted cycles
publish the frame numbers 0 then 1 through the new-frame gate, with frame 1's
readout at trace position 5, after its vertical sync at 4 and configure
at 3. -/
theorem readout_order_strictly_increasing_witness :
    (pipelineTrace (fun m => { SensorSettings.default with frameNumber := m })
        (fun _ => 0) 2)[3 * 1 + 2]? = some (SensorEvent.readout 1 0) ∧
    readoutFrames (pipelineTrace
        (fun m => { SensorSettings.default with frameNumber := m })
        (fun _ => 0) 2) = List.range 2 := by
  have h := readout_order_strictly_increasing
    (fun m => { SensorSettings.default with frameNumber := m })
    (fun _ => 0) 2 1 (by decide) (fun m => rfl)
  exact ⟨h.2.2.1, h.2.2.2.2.2⟩

end EmulatedSensor
